import Mathlib

/-!
Shallow embedding of the setuptools-qmesh packaging extension
(`setuptools_qmesh/dist.py`, `setuptools_qmesh/command/check_gmsh.py`,
`setuptools_qmesh/command/check_qgis.py`,
`setuptools_qmesh/command/egg_info.py`).

Host-system interaction (filesystem queries, `which`/`where.exe` lookups,
module imports, subprocess runs) is modelled by explicit "world" records
supplied as arguments; Python exceptions are modelled by `Except PyErr`.
Each embedded function mirrors the control flow of the corresponding
Python method line by line.
-/

namespace SetuptoolsQmesh

/-- Python exceptions that can arise in the embedded code paths. -/
inductive PyErr where
  | distutilsSetupError (msg : String)
  | distutilsPlatformError (msg : String)
  | calledProcessError
  | moduleNotFoundError
  | attributeError
  | unboundLocalError
  | invalidGitRepositoryError
  | importError
  | valueError
  deriving Repr, DecidableEq

/-- One host-system probe performed during option finalisation: a PATH
lookup (`which`/`where.exe`) or a Python module import. -/
inductive Probe where
  | whichLookup (tool : String)
  | moduleImport (modName : String)
  deriving Repr, DecidableEq

/-- Splitting a character list at every occurrence of `sep`, keeping empty
pieces: the semantics of Python `str.split(sep)` for a one-character
separator. -/
def splitCharsOn (sep : Char) : List Char → List (List Char)
  | [] => [[]]
  | c :: cs =>
      let rest := splitCharsOn sep cs
      if c = sep then [] :: rest
      else
        match rest with
        | [] => [[c]]
        | seg :: segs => (c :: seg) :: segs

/-- Python `str.split('/')`. -/
def splitOnSlash (s : String) : List String :=
  (splitCharsOn '/' s.toList).map String.mk

/-- Python `str.startswith('/')`. -/
def headIsSlash (s : String) : Bool :=
  match s.toList with
  | c :: _ => c = '/'
  | [] => false

/-- Python `str.endswith('/')`. -/
def lastIsSlash (s : String) : Bool :=
  match s.toList.reverse with
  | c :: _ => c = '/'
  | [] => false

/-- Python `posixpath.join` restricted to two arguments, as used by
`os.path.join` in the sources (POSIX semantics): an absolute second
argument replaces the first; otherwise the parts are glued, inserting a
separator unless the first part is empty or already ends in one. -/
def osPathJoin (a b : String) : String :=
  if headIsSlash b then b
  else if a == "" || lastIsSlash a then a ++ b
  else a ++ "/" ++ b

/-- Leading-whitespace removal, one side of Python `str.strip()`. -/
def dropLeadingWs : List Char → List Char
  | [] => []
  | c :: cs => if c.isWhitespace then dropLeadingWs cs else c :: cs

/-- Python `str.strip()`: whitespace removed from both ends. -/
def pythonStrip (s : String) : String :=
  String.mk (dropLeadingWs ((dropLeadingWs s.toList.reverse).reverse))

/-- Python `file.readline()` on the full captured output: the first line,
keeping its trailing newline when one is present. -/
def readFirstLine (s : String) : String :=
  match splitCharsOn '\n' s.toList with
  | [] => ""
  | [l] => String.mk l
  | l :: _ => String.mk l ++ "\n"

/-- Index of the last occurrence of `c` in `cs`, if any. -/
def lastIdxOf (c : Char) (cs : List Char) : Option Nat :=
  (List.range cs.length).foldl
    (fun acc i => if cs[i]? = some c then some i else acc) none

/-- The root part of Python `os.path.splitext` (POSIX): split off the
extension at the last dot of the final path component, unless every
character of that component before the dot is itself a dot. -/
def splitextStem (p : String) : String :=
  let cs := p.toList
  let sepIdx : Int := match lastIdxOf '/' cs with | some i => (i : Int) | none => -1
  let dotIdx : Int := match lastIdxOf '.' cs with | some i => (i : Int) | none => -1
  if sepIdx < dotIdx then
    let filenameStart := (sepIdx + 1).toNat
    let allDots := (List.range (dotIdx.toNat - filenameStart)).all
      fun k => cs[filenameStart + k]? = some '.'
    if allDots then p else String.mk (cs.take dotIdx.toNat)
  else p

/-- `dist.py`, `assert_path(dist, attr, value)`.  The filesystem is the
Boolean predicate `pathExists` (Python `os.path.exists`).  The first
component is the sequence of messages the function announces through the
distribution object (`dist.announce(msg, FATAL)`); the second is normal
return or the raised exception.  Python formats the message with `%r`,
rendered here as single quotes around the string (exact for values
containing no quote characters). -/
def assert_path (pathExists : String → Bool) (attr value : String) :
    List String × Except PyErr Unit :=
  if pathExists value then ([], Except.ok ())
  else
    let msg := "'" ++ attr ++ "' must be a path ('" ++ value ++ "' is not a path)"
    ([msg], Except.error (PyErr.distutilsSetupError msg))

/-- State of a method's execution of `finalize_options`: the host probes it
performed, the command attribute (`self.gmsh_bin_path` / `self.qgis_path`)
after execution — kept even when the method then raises — and the
method's outcome. -/
structure FinalizeOutcome where
  probes : List Probe
  selfPath : Option String
  result : Except PyErr Unit
  deriving Repr

/-- The message of the `DistutilsSetupError` raised when the gmsh PATH
lookup exits with nonzero status (`check_gmsh.py` lines 112-116). -/
def gmshMissingMsg : String :=
  "Qmesh uses gmsh as a mesh generator, hence gmsh must be installed. Could not locate a gmsh installation."

/-- The message of the `DistutilsPlatformError` raised when the `qgis`
module cannot be imported (`check_qgis.py` lines 114-117). -/
def qgisMissingMsg : String :=
  "Qmesh uses qgis for GIS operations, hence qgis must be installed. Host system does not appear to have a qgis installation."

/-- Host state seen by `CheckGmsh.finalize_options`: the value of
`platform.system()`, the stdout of `which gmsh` / `where.exe gmsh` (`none`
models a nonzero exit status, so `subprocess.check_output` raising
`CalledProcessError`), and the filesystem predicate used by `assert_path`. -/
structure GmshWorld where
  platformSystem : String
  whichGmsh : Option String
  whereGmsh : Option String
  pathExists : String → Bool

namespace CheckGmsh

/-- The `try` block of `check_gmsh.py` lines 105-117 that probes the host
for gmsh when neither override is set, including the `except
CalledProcessError` handler and the final `gmsh_bin_path.strip()`.  The
local variable `gmsh_bin_path` starts unbound (`none`); it is assigned
only by the `Linux`/`Darwin` branch or the `Windows` branch, so on any
other platform the `.strip()` call raises `UnboundLocalError`. -/
def probeGmsh (w : GmshWorld) : List Probe × Except PyErr String :=
  let sys := w.platformSystem
  let r1 : List Probe × Except PyErr (Option String) :=
    if sys = "Linux" ∨ sys = "Darwin" then
      match w.whichGmsh with
      | some out => ([Probe.whichLookup "gmsh"], Except.ok (some out))
      | none => ([Probe.whichLookup "gmsh"], Except.error PyErr.calledProcessError)
    else ([], Except.ok none)
  let r2 : List Probe × Except PyErr (Option String) :=
    match r1 with
    | (ps, Except.error e) => (ps, Except.error e)
    | (ps, Except.ok acc) =>
      if sys = "Windows" then
        match w.whereGmsh with
        | some out => (ps ++ [Probe.whichLookup "gmsh"], Except.ok (some out))
        | none => (ps ++ [Probe.whichLookup "gmsh"], Except.error PyErr.calledProcessError)
      else (ps, Except.ok acc)
  match r2 with
  | (ps, Except.error PyErr.calledProcessError) =>
      (ps, Except.error (PyErr.distutilsSetupError gmshMissingMsg))
  | (ps, Except.error e) => (ps, Except.error e)
  | (ps, Except.ok (some s)) => (ps, Except.ok (pythonStrip s))
  | (ps, Except.ok none) => (ps, Except.error PyErr.unboundLocalError)

/-- `CheckGmsh.finalize_options`.  `cmdPath` is the command attribute
`self.gmsh_bin_path` on entry (the `--gmsh-bin-path` option), `distPath`
the distribution attribute `self.distribution.gmsh_bin_path`.  When either
is set it is used verbatim; otherwise the host is probed; in every normal
path the method ends by calling `assert_path` on the stored value. -/
def finalize_options (cmdPath distPath : Option String) (w : GmshWorld) :
    FinalizeOutcome :=
  match cmdPath with
  | some p =>
      { probes := [], selfPath := some p
        result := (assert_path w.pathExists "gmsh_bin_path" p).2 }
  | none =>
    match distPath with
    | some p =>
        { probes := [], selfPath := some p
          result := (assert_path w.pathExists "gmsh_bin_path" p).2 }
    | none =>
      match probeGmsh w with
      | (ps, Except.error e) =>
          { probes := ps, selfPath := none, result := Except.error e }
      | (ps, Except.ok s) =>
          { probes := ps, selfPath := some s
            result := (assert_path w.pathExists "gmsh_bin_path" s).2 }

end CheckGmsh

/-- Host state seen by `CheckGmsh.run`: the filesystem predicates
`os.path.isdir` / `os.path.isfile` and the behaviour of running
`<path> --version` (`none` models a nonzero return code; `some out` models
return code 0 with combined stdout/stderr `out`). -/
structure GmshRunWorld where
  isDir : String → Bool
  isFile : String → Bool
  versionOutput : String → Option String

/-- State after an execution of `CheckGmsh.run`: the command attribute
`self.gmsh_bin_path`, the distribution attribute
`self.distribution.gmsh_bin_path`, the captured version line (if the
version call succeeded) and the outcome. -/
structure GmshRunOutcome where
  selfPath : String
  distPath : Option String
  version : Option String
  result : Except PyErr Unit
  deriving Repr

namespace CheckGmsh

/-- `CheckGmsh.run` (`check_gmsh.py` lines 123-155).  `selfPath0` is
`self.gmsh_bin_path` after `finalize_options`; `distPath0` the
distribution attribute before the run.  If the location is a directory,
`gmsh` is joined onto it once and the result must be a file; then
`<path> --version` must exit 0; only then is the path assigned to the
distribution attribute. -/
def run (selfPath0 : String) (distPath0 : Option String) (w : GmshRunWorld) :
    GmshRunOutcome :=
  let step : String × Except PyErr Unit :=
    if w.isDir selfPath0 then
      let p := osPathJoin selfPath0 "gmsh"
      if w.isFile p then (p, Except.ok ())
      else (p, Except.error (PyErr.distutilsSetupError ("Could not find gmsh at " ++ p)))
    else (selfPath0, Except.ok ())
  match step with
  | (p, Except.error e) =>
      { selfPath := p, distPath := distPath0, version := none, result := Except.error e }
  | (p, Except.ok _) =>
    match w.versionOutput p with
    | none =>
        { selfPath := p, distPath := distPath0, version := none
          result := Except.error (PyErr.distutilsSetupError ("Could not find gmsh at " ++ p)) }
    | some out =>
        { selfPath := p, distPath := some p, version := some (readFirstLine out)
          result := Except.ok () }

end CheckGmsh

/-- The loop of `check_qgis.py` lines 105-111: starting from `'/'`, walk
the zipped segment lists of the qgis Python-module path and the `which
qgis` output, joining each segment while the two sides agree and stopping
at the first disagreement. -/
def qgisCommonRootLoop : List String → List String → String → String
  | p :: ps, b :: bs, acc =>
      if p = b then qgisCommonRootLoop ps bs (osPathJoin acc p) else acc
  | _, _, acc => acc

/-- The qgis installation root `CheckQgis.finalize_options` derives from
the module path and the PATH-lookup output: the loop above over
`str.split('/')` of the two strings, with accumulator `'/'`. -/
def qgisCommonRoot (pythonPath binPath : String) : String :=
  qgisCommonRootLoop (splitOnSlash pythonPath) (splitOnSlash binPath) "/"

/-- Modelled from the spec's words, for comparison with `qgisCommonRoot`:
the longest common leading run of matching segments of two segment lists,
stopping at the first mismatching segment. -/
def commonSegs : List String → List String → List String
  | p :: ps, b :: bs => if p = b then p :: commonSegs ps bs else []
  | _, _ => []

/-- Modelled from the spec's words, for comparison with `qgisCommonRoot`:
the join, starting from the filesystem root, of the longest common prefix
of matching path segments of the two paths. -/
def specDerivedRoot (pythonPath binPath : String) : String :=
  (commonSegs (splitOnSlash pythonPath) (splitOnSlash binPath)).foldl osPathJoin "/"

/-- Host state seen by `CheckQgis.finalize_options`: the result of
`importlib.import_module('qgis')` (`some p` gives `qgis.__path__[0] = p`,
`none` models `ModuleNotFoundError`), the stdout of `which qgis` (`none`
models a nonzero exit, so `CalledProcessError`), and the filesystem
predicate used by `assert_path`. -/
structure QgisWorld where
  qgisModulePath : Option String
  whichQgis : Option String
  pathExists : String → Bool

namespace CheckQgis

/-- The `try` block of `check_qgis.py` lines 101-117 probing for a qgis
installation: import the `qgis` module, run `which qgis`, derive the
common root.  Only `ModuleNotFoundError` is caught (and converted to
`DistutilsPlatformError`); a `CalledProcessError` from the `which` call
propagates unhandled. -/
def probeQgis (w : QgisWorld) : List Probe × Except PyErr String :=
  match w.qgisModulePath with
  | none =>
      ([Probe.moduleImport "qgis"],
       Except.error (PyErr.distutilsPlatformError qgisMissingMsg))
  | some pythonPath =>
    match w.whichQgis with
    | none =>
        ([Probe.moduleImport "qgis", Probe.whichLookup "qgis"],
         Except.error PyErr.calledProcessError)
    | some binOut =>
        ([Probe.moduleImport "qgis", Probe.whichLookup "qgis"],
         Except.ok (qgisCommonRoot pythonPath binOut))

/-- `CheckQgis.finalize_options`.  `cmdPath` is the command attribute
`self.qgis_path` on entry (the `--qgis-path` option), `distPath` the
distribution attribute `self.distribution.qgis_path`.  When either is set
it is used verbatim; otherwise the host is probed; every normal path ends
by calling `assert_path` (with attribute name `'qgis-path'`) on the
stored value. -/
def finalize_options (cmdPath distPath : Option String) (w : QgisWorld) :
    FinalizeOutcome :=
  match cmdPath with
  | some p =>
      { probes := [], selfPath := some p
        result := (assert_path w.pathExists "qgis-path" p).2 }
  | none =>
    match distPath with
    | some p =>
        { probes := [], selfPath := some p
          result := (assert_path w.pathExists "qgis-path" p).2 }
    | none =>
      match probeQgis w with
      | (ps, Except.error e) =>
          { probes := ps, selfPath := none, result := Except.error e }
      | (ps, Except.ok s) =>
          { probes := ps, selfPath := some s
            result := (assert_path w.pathExists "qgis-path" s).2 }

end CheckQgis

/-- State of the imported `qgis.core` module during `CheckQgis.run`:
the value of `qgis_core.QGis.QGIS_VERSION` (the qgis-2 attribute name;
`none` models `AttributeError`) and of `qgis_core.Qgis.QGIS_VERSION`
(the qgis-3 name). -/
structure QgisCore where
  qgisOldVersion : Option String
  qgisNewVersion : Option String
  deriving Repr, DecidableEq

/-- State after an execution of `CheckQgis.run`: the distribution
attribute `self.distribution.qgis_path`, the version string obtained (if
any) and the outcome. -/
structure QgisRunOutcome where
  distPath : Option String
  version : Option String
  result : Except PyErr Unit
  deriving Repr

namespace CheckQgis

/-- `CheckQgis.run` (`check_qgis.py` lines 123-157).  `selfPath` is
`self.qgis_path` after `finalize_options`; `distPath0` the distribution
attribute before the run; `core` the result of
`importlib.import_module('qgis.core')` (`none` models
`ModuleNotFoundError`).  The version lookup tries
`qgis_core.QGis.QGIS_VERSION` first and, on `AttributeError`, falls back
to `qgis_core.Qgis.QGIS_VERSION`; if that also fails the `AttributeError`
propagates (the surrounding handler catches only `ModuleNotFoundError`).
In the `except ModuleNotFoundError` branch the code builds
`DistutilsPlatformError(msg)` without a `raise` statement, so execution
falls through to the assignment
`self.distribution.qgis_path = self.qgis_path` and the method returns
normally. -/
def run (selfPath : String) (distPath0 : Option String) (core : Option QgisCore) :
    QgisRunOutcome :=
  match core with
  | none =>
      { distPath := some selfPath, version := none, result := Except.ok () }
  | some c =>
    match c.qgisOldVersion with
    | some v => { distPath := some selfPath, version := some v, result := Except.ok () }
    | none =>
      match c.qgisNewVersion with
      | some v => { distPath := some selfPath, version := some v, result := Except.ok () }
      | none =>
          { distPath := distPath0, version := none
            result := Except.error PyErr.attributeError }

end CheckQgis

/-- The git repository state seen by `write_git_sha_key` once
`git.Repo(".")` has succeeded: the behaviour of the attribute access
`repo.head.object.hexsha` — the commit sha, or the exception that access
raises (GitPython raises `ValueError` on a repository whose HEAD is
unborn, e.g. a freshly initialised repository with no commits) — and the
value of `repo.is_dirty()`. -/
structure GitRepo where
  headObjectSha : Except PyErr String
  isDirty : Bool
  deriving Repr

/-- `git.Repo(".")`: opening the enclosing repository, raising
`InvalidGitRepositoryError` when no repository is present. -/
def gitRepoOpen (repo : Option GitRepo) : Except PyErr GitRepo :=
  match repo with
  | some r => Except.ok r
  | none => Except.error PyErr.invalidGitRepositoryError

/-- One egg-info file written through `cmd.write_or_delete_file`. -/
structure EggWrite where
  argname : String
  filename : String
  contents : String
  deriving Repr, DecidableEq

/-- `egg_info.py`, `write_git_sha_key(cmd, basename, filename)`.
`includeGitShaKey` is `cmd.distribution.include_git_sha_key`; `repo` the
host repository state.  The inner `try` runs `git.Repo(".")`, reads
`repo.head.object.hexsha` and appends the fixed annotation when
`repo.is_dirty()`; its `except` clause catches only
`InvalidGitRepositoryError`, and the outer one only `ImportError`, either
substituting the literal placeholder string.  Any other exception raised
while obtaining the hash (such as `ValueError` on an unborn HEAD)
propagates out of the function. -/
def write_git_sha_key (includeGitShaKey : Bool) (repo : Option GitRepo)
    (basename filename : String) : Except PyErr (List EggWrite) :=
  if includeGitShaKey then
    let attempt : Except PyErr String :=
      match gitRepoOpen repo with
      | Except.ok r =>
        match r.headObjectSha with
        | Except.ok sha =>
            if r.isDirty then
              Except.ok (sha ++ " + uncommited changes (built from dirty repository).")
            else Except.ok sha
        | Except.error e => Except.error e
      | Except.error e => Except.error e
    let handled : Except PyErr String :=
      match attempt with
      | Except.ok s => Except.ok s
      | Except.error PyErr.invalidGitRepositoryError =>
          Except.ok "Could not obtain git sha key."
      | Except.error PyErr.importError =>
          Except.ok "Could not obtain git sha key."
      | Except.error e => Except.error e
    match handled with
    | Except.ok gitShaKey =>
        Except.ok [{ argname := splitextStem basename, filename := filename
                     contents := gitShaKey }]
    | Except.error e => Except.error e
  else Except.ok []

/-- A repository that is present but whose HEAD is unborn, so the
`repo.head.object.hexsha` access raises `ValueError`. -/
def unbornHeadRepo : GitRepo :=
  { headObjectSha := Except.error PyErr.valueError, isDirty := false }

/-- Whether an outcome is one of the two distutils error kinds the design
surfaces (`DistutilsSetupError` / `DistutilsPlatformError`). -/
def isDistutilsErr : Except PyErr Unit → Bool
  | Except.error (PyErr.distutilsSetupError _) => true
  | Except.error (PyErr.distutilsPlatformError _) => true
  | _ => false

/-- A Linux host on which `which gmsh` exits with nonzero status. -/
def linuxNoGmshWorld : GmshWorld :=
  { platformSystem := "Linux", whichGmsh := none, whereGmsh := none
    pathExists := fun _ => false }

/-- A host whose `platform.system()` is `'Java'`, a value none of the
branches of the gmsh probe covers. -/
def javaGmshWorld : GmshWorld :=
  { platformSystem := "Java", whichGmsh := none, whereGmsh := none
    pathExists := fun _ => false }

/-- A host without the `qgis` Python module. -/
def qgisNoModuleWorld : QgisWorld :=
  { qgisModulePath := none, whichQgis := none, pathExists := fun _ => true }

/-- A host where the `qgis` module imports but `which qgis` exits with
nonzero status. -/
def qgisWhichFailWorld : QgisWorld :=
  { qgisModulePath := some "/usr/lib/python3/dist-packages/qgis"
    whichQgis := none, pathExists := fun _ => true }

/-- A host where `/opt/mesher` is a directory but `/opt/mesher/gmsh` is
not a file. -/
def gmshDirWorld : GmshRunWorld :=
  { isDir := fun s => s == "/opt/mesher", isFile := fun _ => false
    versionOutput := fun _ => none }

end SetuptoolsQmesh

namespace SetuptoolsQmesh

/-- C1: evaluation of `CheckQgis.run` when `importlib.import_module('qgis.core')`
raises `ModuleNotFoundError`.  The claim states this import failure is
always fatal to the run; the code instead constructs the
`DistutilsPlatformError` without raising it, so the run completes
normally and even assigns the distribution attribute. -/
theorem qgisRun_import_failure_continues :
    (CheckQgis.run "/usr" none none).result = Except.ok () ∧
    (CheckQgis.run "/usr" none none).distPath = some "/usr" :=
  ⟨rfl, rfl⟩

/-- C2: evaluation of `CheckQgis.run` at an input where verification fails
(the `qgis.core` import raises `ModuleNotFoundError`, so no version is
obtained) yet the resolved location is still written into
`distribution.qgis_path`, contradicting the claimed
"written back if and only if verification succeeds". -/
theorem qgisRun_writeback_without_version :
    (CheckQgis.run "/opt/qgis" none none).version = none ∧
    (CheckQgis.run "/opt/qgis" none none).distPath = some "/opt/qgis" ∧
    (CheckQgis.run "/opt/qgis" none none).distPath ≠ none :=
  ⟨rfl, rfl, fun h => Option.noConfusion h⟩

/-- C3 counterexample: when both version attributes are present
(`QGis.QGIS_VERSION = "2.18.28"`, `Qgis.QGIS_VERSION = "3.10.4"`), the
code reports the value of the older attribute name, not the newer one,
so the lookup does not try the newer name first as claimed. -/
theorem qgisRun_version_lookup_counterexample :
    (CheckQgis.run "/usr" none
        (some { qgisOldVersion := some "2.18.28", qgisNewVersion := some "3.10.4" })).version
      = some "2.18.28" ∧
    (CheckQgis.run "/usr" none
        (some { qgisOldVersion := some "2.18.28", qgisNewVersion := some "3.10.4" })).version
      ≠ some "3.10.4" :=
  ⟨rfl, by decide⟩

/-- C3 amended: in `CheckQgis.run` the version lookup tries the older
attribute name (`QGis.QGIS_VERSION`) first and falls back to the newer
name (`Qgis.QGIS_VERSION`) only when the older one is absent; it fails
(with `AttributeError`) exactly when neither attribute is present. -/
theorem qgisRun_version_lookup_order (p : String) (d : Option String) (c : QgisCore) :
    (CheckQgis.run p d (some c)).version =
        (match c.qgisOldVersion with
         | some v => some v
         | none => c.qgisNewVersion) ∧
    (CheckQgis.run p d (some c)).result =
        (match c.qgisOldVersion, c.qgisNewVersion with
         | none, none => Except.error PyErr.attributeError
         | _, _ => Except.ok ()) := by
  obtain ⟨o, n⟩ := c
  cases o <;> cases n <;> exact ⟨rfl, rfl⟩

/-- Unfolding of one step of the root-derivation loop against the
spec-modelled longest-common-prefix description. -/
theorem qgisCommonRootLoop_eq_foldl (ps : List String) :
    ∀ (bs : List String) (acc : String),
      qgisCommonRootLoop ps bs acc = (commonSegs ps bs).foldl osPathJoin acc := by
  induction ps with
  | nil => intro bs acc; cases bs <;> rfl
  | cons p ps ih =>
    intro bs acc
    cases bs with
    | nil => rfl
    | cons b bs =>
      by_cases h : p = b
      · simp [qgisCommonRootLoop, commonSegs, h, ih]
      · simp [qgisCommonRootLoop, commonSegs, h]

/-- C4: the derived installation root in `CheckQgis.finalize_options`
equals, for every pair of probed paths, the join starting from the
filesystem root of the longest common prefix of matching path segments of
the two paths (stopping at the first mismatching segment); in particular
module path `/usr/lib/gistoolkit` and executable path
`/usr/bin/gistoolkit-bin` yield root `/usr`. -/
theorem qgisCommonRoot_matches_spec :
    (∀ pythonPath binPath : String,
       qgisCommonRoot pythonPath binPath = specDerivedRoot pythonPath binPath) ∧
    qgisCommonRoot "/usr/lib/gistoolkit" "/usr/bin/gistoolkit-bin" = "/usr" := by
  refine ⟨fun pythonPath binPath => ?_, rfl⟩
  exact qgisCommonRootLoop_eq_foldl _ _ _

/-- C5 counterexample: with no override, the `qgis` module importable but
`which qgis` exiting with nonzero status, `CheckQgis.finalize_options`
raises the raw `CalledProcessError` — not one of the fatal
configuration/platform errors identifying the tool — though it stores no
path. -/
theorem qgisFinalize_which_failure_counterexample :
    (CheckQgis.finalize_options none none qgisWhichFailWorld).result
      = Except.error PyErr.calledProcessError ∧
    isDistutilsErr (CheckQgis.finalize_options none none qgisWhichFailWorld).result
      = false ∧
    (CheckQgis.finalize_options none none qgisWhichFailWorld).selfPath = none :=
  ⟨rfl, rfl, rfl⟩

/-- C5 amended: with no override, a nonzero PATH-lookup exit makes
`CheckGmsh.finalize_options` raise the `DistutilsSetupError` naming gmsh,
and a failing `qgis` import makes `CheckQgis.finalize_options` raise the
`DistutilsPlatformError` naming qgis, while a nonzero `which qgis` exit
propagates as the raw `CalledProcessError`; in every one of these failure
cases no path (partial or otherwise) is stored in the command attribute. -/
theorem finalize_probe_failures :
    (∀ w : GmshWorld,
       (w.platformSystem = "Linux" ∨ w.platformSystem = "Darwin") →
       w.whichGmsh = none →
       CheckGmsh.finalize_options none none w =
         { probes := [Probe.whichLookup "gmsh"], selfPath := none
           result := Except.error (PyErr.distutilsSetupError gmshMissingMsg) }) ∧
    (∀ w : GmshWorld,
       w.platformSystem = "Windows" →
       w.whereGmsh = none →
       CheckGmsh.finalize_options none none w =
         { probes := [Probe.whichLookup "gmsh"], selfPath := none
           result := Except.error (PyErr.distutilsSetupError gmshMissingMsg) }) ∧
    (∀ w : QgisWorld,
       w.qgisModulePath = none →
       CheckQgis.finalize_options none none w =
         { probes := [Probe.moduleImport "qgis"], selfPath := none
           result := Except.error (PyErr.distutilsPlatformError qgisMissingMsg) }) ∧
    (∀ (w : QgisWorld) (p : String),
       w.qgisModulePath = some p →
       w.whichQgis = none →
       CheckQgis.finalize_options none none w =
         { probes := [Probe.moduleImport "qgis", Probe.whichLookup "qgis"]
           selfPath := none
           result := Except.error PyErr.calledProcessError }) := by
  refine ⟨?_, ?_, ?_, ?_⟩
  · intro w h1 h2
    rcases h1 with h | h <;>
      simp [CheckGmsh.finalize_options, CheckGmsh.probeGmsh, h, h2]
  · intro w h1 h2
    simp [CheckGmsh.finalize_options, CheckGmsh.probeGmsh, h1, h2]
  · intro w h1
    simp [CheckQgis.finalize_options, CheckQgis.probeQgis, h1]
  · intro w p h1 h2
    simp [CheckQgis.finalize_options, CheckQgis.probeQgis, h1, h2]

/-- C5 witness: the amended statement applied on a Linux host with a
failing gmsh lookup and on a host without the qgis module. -/
theorem finalize_probe_failures_witness :
    CheckGmsh.finalize_options none none linuxNoGmshWorld =
      { probes := [Probe.whichLookup "gmsh"], selfPath := none
        result := Except.error (PyErr.distutilsSetupError gmshMissingMsg) } ∧
    CheckQgis.finalize_options none none qgisNoModuleWorld =
      { probes := [Probe.moduleImport "qgis"], selfPath := none
        result := Except.error (PyErr.distutilsPlatformError qgisMissingMsg) } :=
  ⟨finalize_probe_failures.1 linuxNoGmshWorld (Or.inl rfl) rfl,
   finalize_probe_failures.2.2.1 qgisNoModuleWorld rfl⟩

/-- C6: in `CheckGmsh.run` the canonical binary filename `gmsh` is joined
onto the resolved location exactly once when that location is a
directory — and the run fails with the `DistutilsSetupError` naming the
joined path when it is not a file — while a non-directory location is
left unmodified. -/
theorem gmshRun_directory_handling (s0 : String) (d : Option String) (w : GmshRunWorld) :
    ((CheckGmsh.run s0 d w).selfPath =
        if w.isDir s0 then osPathJoin s0 "gmsh" else s0) ∧
    (w.isDir s0 = true → w.isFile (osPathJoin s0 "gmsh") = false →
       (CheckGmsh.run s0 d w).result =
         Except.error (PyErr.distutilsSetupError
           ("Could not find gmsh at " ++ osPathJoin s0 "gmsh"))) := by
  constructor
  · cases hd : w.isDir s0 with
    | false =>
        cases hv : w.versionOutput s0 <;> simp [CheckGmsh.run, hd, hv]
    | true =>
        cases hf : w.isFile (osPathJoin s0 "gmsh") with
        | false => simp [CheckGmsh.run, hd, hf]
        | true =>
            cases hv : w.versionOutput (osPathJoin s0 "gmsh") <;>
              simp [CheckGmsh.run, hd, hf, hv]
  · intro hd hf
    simp [CheckGmsh.run, hd, hf]

/-- C6 witness: the directory case at `/opt/mesher`, a directory that does
not contain a `gmsh` file. -/
theorem gmshRun_directory_handling_witness :
    (CheckGmsh.run "/opt/mesher" none gmshDirWorld).selfPath = "/opt/mesher/gmsh" ∧
    (CheckGmsh.run "/opt/mesher" none gmshDirWorld).result =
      Except.error (PyErr.distutilsSetupError "Could not find gmsh at /opt/mesher/gmsh") :=
  ⟨(gmshRun_directory_handling "/opt/mesher" none gmshDirWorld).1.trans rfl,
   (gmshRun_directory_handling "/opt/mesher" none gmshDirWorld).2 rfl rfl⟩

/-- C7: for every non-`None` override (the command attribute or the
distribution attribute), both `finalize_options` methods perform no host
probe, store the override verbatim in the command attribute, and validate
exactly that value with `assert_path` — whatever the validation outcome. -/
theorem finalize_override_verbatim (p : String) (dOpt : Option String)
    (wg : GmshWorld) (wq : QgisWorld) :
    (CheckGmsh.finalize_options (some p) dOpt wg).probes = [] ∧
    (CheckGmsh.finalize_options (some p) dOpt wg).selfPath = some p ∧
    (CheckGmsh.finalize_options (some p) dOpt wg).result =
      (assert_path wg.pathExists "gmsh_bin_path" p).2 ∧
    (CheckGmsh.finalize_options none (some p) wg).probes = [] ∧
    (CheckGmsh.finalize_options none (some p) wg).selfPath = some p ∧
    (CheckGmsh.finalize_options none (some p) wg).result =
      (assert_path wg.pathExists "gmsh_bin_path" p).2 ∧
    (CheckQgis.finalize_options (some p) dOpt wq).probes = [] ∧
    (CheckQgis.finalize_options (some p) dOpt wq).selfPath = some p ∧
    (CheckQgis.finalize_options (some p) dOpt wq).result =
      (assert_path wq.pathExists "qgis-path" p).2 ∧
    (CheckQgis.finalize_options none (some p) wq).probes = [] ∧
    (CheckQgis.finalize_options none (some p) wq).selfPath = some p ∧
    (CheckQgis.finalize_options none (some p) wq).result =
      (assert_path wq.pathExists "qgis-path" p).2 :=
  ⟨rfl, rfl, rfl, rfl, rfl, rfl, rfl, rfl, rfl, rfl, rfl, rfl⟩

/-- C8 counterexample: the git-sha writer, enabled, on a repository that
is present but whose HEAD is unborn — a state where the hash cannot be
obtained — raises the `ValueError` from the `repo.head.object.hexsha`
access instead of writing the placeholder, because the handlers catch
only `InvalidGitRepositoryError` and `ImportError`. -/
theorem write_git_sha_key_unborn_head_counterexample :
    write_git_sha_key true (some unbornHeadRepo) "GIT_SHA.txt" "/x/GIT_SHA.txt"
      = Except.error PyErr.valueError ∧
    write_git_sha_key true (some unbornHeadRepo) "GIT_SHA.txt" "/x/GIT_SHA.txt"
      ≠ Except.ok [{ argname := "GIT_SHA", filename := "/x/GIT_SHA.txt"
                     contents := "Could not obtain git sha key." }] :=
  ⟨rfl, fun h => Except.noConfusion h⟩

/-- C8 amended: `write_git_sha_key`, when enabled, catches only
`InvalidGitRepositoryError` and `ImportError`: when no repository is
present it writes the literal placeholder string instead of failing, when
the hash is obtained from a dirty working tree it appends the fixed
annotation, and from a clean one it writes the sha itself — but any other
exception raised while obtaining the hash (such as `ValueError` on a
repository with an unborn HEAD) propagates, so the writer can raise.
When disabled it writes nothing. -/
theorem write_git_sha_key_behaviour :
    (∀ b f : String,
       write_git_sha_key true none b f =
         Except.ok [{ argname := splitextStem b, filename := f
                      contents := "Could not obtain git sha key." }]) ∧
    (∀ (sha : String) (b f : String),
       write_git_sha_key true (some { headObjectSha := Except.ok sha, isDirty := true }) b f =
         Except.ok [{ argname := splitextStem b, filename := f
                      contents := sha ++ " + uncommited changes (built from dirty repository)." }]) ∧
    (∀ (sha : String) (b f : String),
       write_git_sha_key true (some { headObjectSha := Except.ok sha, isDirty := false }) b f =
         Except.ok [{ argname := splitextStem b, filename := f, contents := sha }]) ∧
    (∀ (e : PyErr) (dirty : Bool) (b f : String),
       e ≠ PyErr.invalidGitRepositoryError → e ≠ PyErr.importError →
       write_git_sha_key true (some { headObjectSha := Except.error e, isDirty := dirty }) b f =
         Except.error e) ∧
    (∀ (repo : Option GitRepo) (b f : String),
       write_git_sha_key false repo b f = Except.ok []) := by
  refine ⟨fun b f => rfl, fun sha b f => rfl, fun sha b f => rfl, ?_, fun repo b f => rfl⟩
  intro e dirty b f h1 h2
  cases e <;> first
    | rfl
    | exact absurd rfl h1
    | exact absurd rfl h2

/-- C8 witness: the amended statement applied to an unborn-HEAD
repository (the uncaught `ValueError` propagates) and to a host with no
repository (the placeholder is written). -/
theorem write_git_sha_key_behaviour_witness :
    write_git_sha_key true
        (some { headObjectSha := Except.error PyErr.valueError, isDirty := true })
        "GIT_SHA.txt" "/x/GIT_SHA.txt"
      = Except.error PyErr.valueError ∧
    write_git_sha_key true none "GIT_SHA.txt" "/x/GIT_SHA.txt" =
      Except.ok [{ argname := "GIT_SHA", filename := "/x/GIT_SHA.txt"
                   contents := "Could not obtain git sha key." }] :=
  ⟨write_git_sha_key_behaviour.2.2.2.1 PyErr.valueError true "GIT_SHA.txt" "/x/GIT_SHA.txt"
     (fun h => PyErr.noConfusion h) (fun h => PyErr.noConfusion h),
   (write_git_sha_key_behaviour.1 "GIT_SHA.txt" "/x/GIT_SHA.txt").trans rfl⟩

/-- C9 counterexample: on a nonexistent path `assert_path` does not
merely raise — it first announces the fatal message through the
distribution object, so raising is not its only side effect. -/
theorem assert_path_announce_counterexample :
    (assert_path (fun _ => false) "qgis-path" "/no/such/path").1 =
      ["'qgis-path' must be a path ('/no/such/path' is not a path)"] ∧
    (assert_path (fun _ => false) "qgis-path" "/no/such/path").1 ≠ [] :=
  ⟨rfl, List.cons_ne_nil _ _⟩

/-- C9 amended: `assert_path` succeeds (with no announcement) exactly on
path strings the filesystem reports as existing, and on every other path
string it announces one fatal message through the distribution object and
raises `DistutilsSetupError`; it has no side effect beyond that
announcement and the raise. -/
theorem assert_path_behaviour (pathExists : String → Bool) (attr value : String) :
    ((assert_path pathExists attr value).2 = Except.ok () ↔ pathExists value = true) ∧
    (pathExists value = true →
       assert_path pathExists attr value = ([], Except.ok ())) ∧
    (pathExists value = false →
       assert_path pathExists attr value =
         (["'" ++ attr ++ "' must be a path ('" ++ value ++ "' is not a path)"],
          Except.error (PyErr.distutilsSetupError
            ("'" ++ attr ++ "' must be a path ('" ++ value ++ "' is not a path)")))) := by
  cases h : pathExists value <;> simp [assert_path, h]

/-- C9 witness: the amended statement applied to an existing path and to
a missing one. -/
theorem assert_path_behaviour_witness :
    assert_path (fun s => s == "/etc") "qgis-path" "/etc" = ([], Except.ok ()) ∧
    assert_path (fun s => s == "/etc") "qgis-path" "/missing" =
      (["'qgis-path' must be a path ('/missing' is not a path)"],
       Except.error (PyErr.distutilsSetupError
         "'qgis-path' must be a path ('/missing' is not a path)")) :=
  ⟨(assert_path_behaviour (fun s => s == "/etc") "qgis-path" "/etc").2.1 rfl,
   (assert_path_behaviour (fun s => s == "/etc") "qgis-path" "/missing").2.2 rfl⟩

/-- C10: with no override, `CheckGmsh.finalize_options` binds the probed
path only on platforms `Linux`, `Darwin` and `Windows`; on any other
platform name it performs no lookup at all and fails with the
unbound-local error at the `.strip()` call instead of the documented
configuration error. -/
theorem gmshFinalize_unknown_platform (w : GmshWorld)
    (h1 : w.platformSystem ≠ "Linux") (h2 : w.platformSystem ≠ "Darwin")
    (h3 : w.platformSystem ≠ "Windows") :
    CheckGmsh.finalize_options none none w =
      { probes := [], selfPath := none
        result := Except.error PyErr.unboundLocalError } := by
  simp [CheckGmsh.finalize_options, CheckGmsh.probeGmsh, h1, h2, h3]

/-- C10 witness: the unknown-platform behaviour at platform name `Java`. -/
theorem gmshFinalize_unknown_platform_witness :
    CheckGmsh.finalize_options none none javaGmshWorld =
      { probes := [], selfPath := none
        result := Except.error PyErr.unboundLocalError } :=
  gmshFinalize_unknown_platform javaGmshWorld
    (by decide) (by decide) (by decide)

end SetuptoolsQmesh
